import Mathlib

/-!
Verification of the govuk-datascrubber orchestration core.

This file gives a shallow embedding, in Lean 4, of the parts of the
repository that the specification's claims talk about:

* src/datascrubber/__init__.py
  - ScrubWorkspaceInstance (constructor, cleanup, delete_old_snapshots,
    the three bounded poll loops)
  - RdsSnapshotFinder (get_snapshot, get_snapshot_identifier,
    get_source_instance_identifier, get_source_instance,
    get_rds_endpoint_address)
* src/datascrubber/task_managers/postgresql.py
  - Postgresql (_discover_available_dbs, get_viable_tasks, run_task)

Conventions used by the embedding:

* AWS RDS is modelled as a record of response functions (RdsProvider);
  each finder method returns the updated resolver state, the list of RDS
  API calls it performed, and either a value or the exception it raised.
* Python datetimes and wall-clock times are modelled as natural numbers;
  a missing SnapshotCreateTime is an Option that the code defaults to 0,
  exactly as x.get('SnapshotCreateTime', 0) does.
* Python's stable list.sort(key=k, reverse=True) is modelled by
  List.mergeSort with the comparison (k b <= k a); Lean's mergeSort is a
  stable sort, like CPython's.
* A scrub routine (an opaque function from datascrubber.tasks) is
  modelled as a state transformer on the target database state that can
  either return a new state (the statements it executed, applied on
  commit) or raise; rollback discards the transformer's result.
-/

/-! ## Snapshot and instance records (the fields the code reads) -/

/-- One element of an RDS DescribeDBSnapshots response, restricted to the
keys the program reads. -/
structure SnapshotRec where
  dbSnapshotIdentifier : String
  dbInstanceIdentifier : String
  snapshotCreateTime : Option Nat
  status : String
  engine : String
deriving DecidableEq

/-- One VpcSecurityGroups entry of a DescribeDBInstances response. -/
structure VpcSecurityGroup where
  vpcSecurityGroupId : String
  status : String
deriving DecidableEq

/-- One element of an RDS DescribeDBInstances response, restricted to the
keys the program reads.  The endpoint is optional because the discovery
loop guards on 'Endpoint' in instance. -/
structure InstanceRec where
  dbInstanceIdentifier : String
  endpoint : Option (String × Nat)
  vpcSecurityGroups : List VpcSecurityGroup
  dbSubnetGroupName : String
  masterUsername : String
  dbInstanceStatus : String
deriving DecidableEq

/-- Sort key used at lines 115 and 322 of __init__.py:
x.get('SnapshotCreateTime', 0). -/
def snapKey (s : SnapshotRec) : Nat := s.snapshotCreateTime.getD 0

/-- Comparison corresponding to list.sort(key=snapKey, reverse=True):
a precedes b when the key of b is at most the key of a. -/
def snapDescLE (a b : SnapshotRec) : Bool := decide (snapKey b ≤ snapKey a)

/-- Python's list.sort(key=lambda x: x.get('SnapshotCreateTime', 0),
reverse=True): a stable descending sort on the creation-time key. -/
def sortSnapsDesc (l : List SnapshotRec) : List SnapshotRec :=
  l.mergeSort snapDescLE

/-- Largest creation-time key occurring in a list (0 for the empty list). -/
def maxSnapKey (l : List SnapshotRec) : Nat :=
  l.foldl (fun m s => max m (snapKey s)) 0


/-! ## RdsSnapshotFinder (src/datascrubber/__init__.py, lines 267-407) -/

/-- The provider calls the resolver can perform, for observing which API
requests a method issued.  describeInstancesAll is the unfiltered
describe_db_instances() enumeration at line 348. -/
inductive ProviderCall where
  | describeInstancesAll
  | describeInstancesById (id : String)
  | describeSnapshotsById (id : String)
  | describeSnapshotsByInstance (id : String)
  | dnsQuery (hostname : String)
deriving DecidableEq

/-- The exceptions RdsSnapshotFinder raises (messages abridged to their
identifying data). -/
inductive FinderErr where
  | noInput
  | noHostname
  | dnsFailure
  | notRdsSubdomain (cname : String)
  | snapshotNotFound (id : String)
  | noSnapshots
  | noMatchingInstance (address : String)
  | instanceNotFound (id : String)
deriving DecidableEq

/-- The RDS and DNS environment, as response functions.  A DNS answer of
none models a resolution failure; instanceById none models the exception
boto3 raises for describe_db_instances on an unknown identifier (the
comment at line 372). -/
structure RdsProvider where
  snapshotsById : String → List SnapshotRec
  snapshotsByInstance : String → List SnapshotRec
  allInstances : List InstanceRec
  instanceById : String → Option InstanceRec
  dnsCanonical : String → Option String

/-- The mutable attributes of an RdsSnapshotFinder (lines 277-283). -/
structure Finder where
  hostname : Option String
  source_instance_identifier : Option String
  snapshot_identifier : Option String
  rds_endpoint_address : Option String
  source_instance : Option InstanceRec
  snapshot : Option SnapshotRec
deriving DecidableEq

deriving instance DecidableEq for Except

/-- Result of one finder method: the state after the call (Python
attribute mutations persist even when an exception propagates), the
provider calls made, and the returned value or raised exception. -/
structure FStep (α : Type) where
  st : Finder
  calls : List ProviderCall
  res : Except FinderErr α
deriving DecidableEq

/-- The attribute initialisation of RdsSnapshotFinder.__init__
(lines 277-283). -/
def mkFinder (hostname source_instance_identifier snapshot_identifier :
    Option String) : Finder :=
  { hostname := hostname
    source_instance_identifier := source_instance_identifier
    snapshot_identifier := snapshot_identifier
    rds_endpoint_address := none
    source_instance := none
    snapshot := none }

/-- RdsSnapshotFinder.__init__ (lines 270-285) including the
all-arguments-missing check at line 274. -/
def RdsSnapshotFinder.init (hostname source_instance_identifier
    snapshot_identifier : Option String) : Except FinderErr Finder :=
  if hostname = none ∧ source_instance_identifier = none ∧
      snapshot_identifier = none then
    .error .noInput
  else
    .ok (mkFinder hostname source_instance_identifier snapshot_identifier)

/-- Is cname a subdomain of rds.amazonaws.com. (line 394)?  Absolute DNS
names are modelled as strings with a trailing dot. -/
def isRdsSubdomain (cname : String) : Bool :=
  cname = "rds.amazonaws.com." || cname.endsWith ".rds.amazonaws.com."

/-- Python str.rstrip('.'): remove every trailing dot. -/
def rstripDots (s : String) : String :=
  ((s.data.reverse.dropWhile (fun c => c = '.')).reverse).asString

/-- RdsSnapshotFinder.get_rds_endpoint_address (lines 386-407):
memoised DNS resolution of the hostname, restricted to the managed RDS
domain; raises when no hostname was provided (get_hostname, line 382). -/
def RdsSnapshotFinder.get_rds_endpoint_address (st : Finder)
    (P : RdsProvider) : FStep String :=
  match st.rds_endpoint_address with
  | some a => ⟨st, [], .ok a⟩
  | none =>
    match st.hostname with
    | none => ⟨st, [], .error .noHostname⟩
    | some h =>
      match P.dnsCanonical h with
      | none => ⟨st, [.dnsQuery h], .error .dnsFailure⟩
      | some cname =>
        if isRdsSubdomain cname then
          let addr := rstripDots cname
          ⟨{ st with rds_endpoint_address := some addr },
            [.dnsQuery h], .ok addr⟩
        else
          ⟨st, [.dnsQuery h], .error (.notRdsSubdomain (rstripDots cname))⟩

/-- The instance-matching loop of get_source_instance (lines 355-366):
walk the enumerated instances in order, skip any without an 'Endpoint'
key, and stop at the first whose endpoint address equals the DNS-resolved
endpoint address (the first address computation caches the resolution). -/
def RdsSnapshotFinder.findMatchingInstance (P : RdsProvider) :
    List InstanceRec → Finder → FStep (Option InstanceRec)
  | [], st => ⟨st, [], .ok none⟩
  | inst :: rest, st =>
    match inst.endpoint with
    | none => RdsSnapshotFinder.findMatchingInstance P rest st
    | some ep =>
      let r := RdsSnapshotFinder.get_rds_endpoint_address st P
      match r.res with
      | .error e => ⟨r.st, r.calls, .error e⟩
      | .ok addr =>
        if ep.1 = addr then
          ⟨r.st, r.calls, .ok (some inst)⟩
        else
          let r2 := RdsSnapshotFinder.findMatchingInstance P rest r.st
          ⟨r2.st, r.calls ++ r2.calls, r2.res⟩

/-- RdsSnapshotFinder.get_source_instance (lines 343-378).  With no known
identifier it performs the unfiltered describe_db_instances() enumeration
(line 348) and matches on endpoint address; note that the exception
message at line 369 evaluates get_rds_endpoint_address() again.  With a
known identifier it describes that instance directly (lines 371-376),
which sets only source_instance. -/
def RdsSnapshotFinder.get_source_instance (st : Finder) (P : RdsProvider) :
    FStep InstanceRec :=
  match st.source_instance with
  | some i => ⟨st, [], .ok i⟩
  | none =>
    match st.source_instance_identifier with
    | none =>
      let r := RdsSnapshotFinder.findMatchingInstance P P.allInstances st
      match r.res with
      | .error e => ⟨r.st, .describeInstancesAll :: r.calls, .error e⟩
      | .ok (some inst) =>
        ⟨{ r.st with
            source_instance := some inst,
            source_instance_identifier := some inst.dbInstanceIdentifier },
          .describeInstancesAll :: r.calls, .ok inst⟩
      | .ok none =>
        let r2 := RdsSnapshotFinder.get_rds_endpoint_address r.st P
        match r2.res with
        | .error e =>
          ⟨r2.st, .describeInstancesAll :: (r.calls ++ r2.calls), .error e⟩
        | .ok addr =>
          ⟨r2.st, .describeInstancesAll :: (r.calls ++ r2.calls),
            .error (.noMatchingInstance addr)⟩
    | some iid =>
      match P.instanceById iid with
      | none => ⟨st, [.describeInstancesById iid],
          .error (.instanceNotFound iid)⟩
      | some i =>
        ⟨{ st with source_instance := some i },
          [.describeInstancesById iid], .ok i⟩

/-- RdsSnapshotFinder.get_source_instance_identifier (lines 332-341). -/
def RdsSnapshotFinder.get_source_instance_identifier (st : Finder)
    (P : RdsProvider) : FStep String :=
  match st.source_instance_identifier with
  | some iid => ⟨st, [], .ok iid⟩
  | none =>
    let r := RdsSnapshotFinder.get_source_instance st P
    match r.res with
    | .error e => ⟨r.st, r.calls, .error e⟩
    | .ok i =>
      ⟨{ r.st with
          source_instance_identifier := some i.dbInstanceIdentifier },
        r.calls, .ok i.dbInstanceIdentifier⟩

/-- RdsSnapshotFinder.get_snapshot_identifier (lines 303-330): when no
snapshot identifier is known, list the source instance's snapshots, raise
if there are none, stable-sort them descending on
x.get('SnapshotCreateTime', 0) and keep the identifier of the first.
(The source checks emptiness before sorting; the sorted list is empty
exactly when the response list is, since sorting permutes.) -/
def RdsSnapshotFinder.get_snapshot_identifier (st : Finder)
    (P : RdsProvider) : FStep String :=
  match st.snapshot_identifier with
  | some sid => ⟨st, [], .ok sid⟩
  | none =>
    let r := RdsSnapshotFinder.get_source_instance_identifier st P
    match r.res with
    | .error e => ⟨r.st, r.calls, .error e⟩
    | .ok iid =>
      let calls := r.calls ++ [.describeSnapshotsByInstance iid]
      match sortSnapsDesc (P.snapshotsByInstance iid) with
      | [] => ⟨r.st, calls, .error .noSnapshots⟩
      | most_recent :: _ =>
        ⟨{ r.st with
            snapshot_identifier := some most_recent.dbSnapshotIdentifier },
          calls, .ok most_recent.dbSnapshotIdentifier⟩

/-- RdsSnapshotFinder.get_snapshot (lines 287-301): fetch and cache the
snapshot for the (possibly just discovered) snapshot identifier, raise if
the response is empty, and set source_instance_identifier from the
snapshot unconditionally (line 299). -/
def RdsSnapshotFinder.get_snapshot (st : Finder) (P : RdsProvider) :
    FStep SnapshotRec :=
  match st.snapshot with
  | some s => ⟨st, [], .ok s⟩
  | none =>
    let r := RdsSnapshotFinder.get_snapshot_identifier st P
    match r.res with
    | .error e => ⟨r.st, r.calls, .error e⟩
    | .ok sid =>
      let calls := r.calls ++ [.describeSnapshotsById sid]
      match P.snapshotsById sid with
      | [] => ⟨r.st, calls, .error (.snapshotNotFound sid)⟩
      | snap :: _ =>
        ⟨{ r.st with
            snapshot := some snap,
            source_instance_identifier := some snap.dbInstanceIdentifier },
          calls, .ok snap⟩

/-! ## SHA-256 over Nat words (hashlib.sha256, line 25 of __init__.py)

32-bit machine words are natural numbers reduced modulo 2^32. -/

def w32 (n : Nat) : Nat := n % 4294967296

def wadd (a b : Nat) : Nat := w32 (a + b)

def rotr32 (x n : Nat) : Nat := w32 ((x >>> n) ||| (x <<< (32 - n)))

def bigSigma0 (x : Nat) : Nat := rotr32 x 2 ^^^ rotr32 x 13 ^^^ rotr32 x 22

def bigSigma1 (x : Nat) : Nat := rotr32 x 6 ^^^ rotr32 x 11 ^^^ rotr32 x 25

def smallSigma0 (x : Nat) : Nat := rotr32 x 7 ^^^ rotr32 x 18 ^^^ (x >>> 3)

def smallSigma1 (x : Nat) : Nat := rotr32 x 17 ^^^ rotr32 x 19 ^^^ (x >>> 10)

def chF (x y z : Nat) : Nat := (x &&& y) ^^^ ((x ^^^ 4294967295) &&& z)

def majF (x y z : Nat) : Nat := (x &&& y) ^^^ (x &&& z) ^^^ (y &&& z)

/-- The SHA-256 round constants. -/
def sha256K : List Nat :=
  [1116352408, 1899447441, 3049323471,
   3921009573, 961987163, 1508970993,
   2453635748, 2870763221, 3624381080,
   310598401, 607225278, 1426881987,
   1925078388, 2162078206, 2614888103,
   3248222580, 3835390401, 4022224774,
   264347078, 604807628, 770255983,
   1249150122, 1555081692, 1996064986,
   2554220882, 2821834349, 2952996808,
   3210313671, 3336571891, 3584528711,
   113926993, 338241895, 666307205,
   773529912, 1294757372, 1396182291,
   1695183700, 1986661051, 2177026350,
   2456956037, 2730485921, 2820302411,
   3259730800, 3345764771, 3516065817,
   3600352804, 4094571909, 275423344,
   430227734, 506948616, 659060556,
   883997877, 958139571, 1322822218,
   1537002063, 1747873779, 1955562222,
   2024104815, 2227730452, 2361852424,
   2428436474, 2756734187, 3204031479,
   3329325298]

/-- The SHA-256 initial hash value. -/
def sha256H0 : List Nat :=
  [1779033703, 3144134277, 1013904242,
   2773480762, 1359893119, 2600822924,
   528734635, 1541459225]

structure Sha256State where
  a : Nat
  b : Nat
  c : Nat
  d : Nat
  e : Nat
  f : Nat
  g : Nat
  h : Nat

def sha256Round (k w : Nat) (s : Sha256State) : Sha256State :=
  let t1 := wadd s.h (wadd (bigSigma1 s.e) (wadd (chF s.e s.f s.g) (wadd k w)))
  let t2 := wadd (bigSigma0 s.a) (majF s.a s.b s.c)
  ⟨wadd t1 t2, s.a, s.b, s.c, wadd s.d t1, s.e, s.f, s.g⟩

/-- Extend 16 message words to the 64-word schedule. -/
def sha256Schedule (w16 : List Nat) : List Nat :=
  (List.range 48).foldl (fun ws i =>
    ws ++ [wadd (wadd (smallSigma1 (ws.getD (i + 14) 0)) (ws.getD (i + 9) 0))
      (wadd (smallSigma0 (ws.getD (i + 1) 0)) (ws.getD i 0))]) w16

def sha256Compress (hs : List Nat) (ws : List Nat) : List Nat :=
  let s0 : Sha256State :=
    ⟨hs.getD 0 0, hs.getD 1 0, hs.getD 2 0, hs.getD 3 0,
     hs.getD 4 0, hs.getD 5 0, hs.getD 6 0, hs.getD 7 0⟩
  let s := (List.range 64).foldl
    (fun s i => sha256Round (sha256K.getD i 0) (ws.getD i 0) s) s0
  [wadd (hs.getD 0 0) s.a, wadd (hs.getD 1 0) s.b,
   wadd (hs.getD 2 0) s.c, wadd (hs.getD 3 0) s.d,
   wadd (hs.getD 4 0) s.e, wadd (hs.getD 5 0) s.f,
   wadd (hs.getD 6 0) s.g, wadd (hs.getD 7 0) s.h]

/-- Merkle-Damgard padding: 0x80, zeros to 56 mod 64, then the bit length
as 8 big-endian bytes. -/
def sha256Pad (msg : List Nat) : List Nat :=
  let padZeros := (119 - msg.length % 64) % 64
  let bitLen := 8 * msg.length
  msg ++ [128] ++ List.replicate padZeros 0 ++
    (List.range 8).map (fun i => (bitLen >>> (8 * (7 - i))) % 256)

/-- Group the (padded) byte list into 16 big-endian 32-bit words per
64-byte block. -/
def bytesToWordsBE (block : List Nat) : List Nat :=
  (List.range 16).map (fun i =>
    ((block.getD (4 * i) 0) <<< 24) ||| ((block.getD (4 * i + 1) 0) <<< 16) |||
    ((block.getD (4 * i + 2) 0) <<< 8) ||| block.getD (4 * i + 3) 0)

/-- SHA-256 of a byte sequence, as the eight 32-bit words of the digest. -/
def sha256Words (msg : List Nat) : List Nat :=
  let padded := sha256Pad msg
  let blocks := (List.range (padded.length / 64)).map
    (fun b => (padded.drop (64 * b)).take 64)
  blocks.foldl
    (fun hs block => sha256Compress hs (sha256Schedule (bytesToWordsBE block)))
    sha256H0

def hexChar (d : Nat) : Char :=
  Char.ofNat (if d < 10 then 48 + d else 87 + d)

/-- Eight lowercase hex digits of one 32-bit word, most significant
nibble first. -/
def word8Hex (w : Nat) : List Char :=
  (List.range 8).map (fun i => hexChar ((w >>> (28 - 4 * i)) % 16))

/-- UTF-8 encoding of one code point, as byte values. -/
def utf8Bytes (c : Char) : List Nat :=
  let n := c.toNat
  if n < 128 then [n]
  else if n < 2048 then [192 + n / 64, 128 + n % 64]
  else if n < 65536 then
    [224 + n / 4096, 128 + (n / 64) % 64, 128 + n % 64]
  else
    [240 + n / 262144, 128 + (n / 4096) % 64, 128 + (n / 64) % 64,
     128 + n % 64]

/-- Python str.encode(): the UTF-8 bytes of a string. -/
def strUTF8 (s : String) : List Nat := s.data.flatMap utf8Bytes

/-- hashlib.sha256(x.encode()).hexdigest(): lowercase hex digest of the
UTF-8 encoding. -/
def sha256hex (s : String) : String :=
  ((sha256Words (strUTF8 s)).foldl
    (fun acc w => acc ++ word8Hex w) []).asString


/-! ## ScrubWorkspaceInstance (src/datascrubber/__init__.py, lines 12-264) -/

/-- Python "{0:x}".format(n): minimal lowercase hex (used for the
generated password at line 20, with n = random.getrandbits(41 * 4)). -/
def natToHex (n : Nat) : String := (Nat.toDigits 16 n).asString

def pad2 (n : Nat) : String := if n < 10 then "0" ++ toString n else toString n

def pad4 (n : Nat) : String :=
  if n < 10 then "000" ++ toString n
  else if n < 100 then "00" ++ toString n
  else if n < 1000 then "0" ++ toString n
  else toString n

/-- The fields of datetime.now() that strftime("%Y-%m-%d-%H-%M") reads. -/
structure Timestamp where
  year : Nat
  month : Nat
  day : Nat
  hour : Nat
  minute : Nat
deriving DecidableEq

/-- timestamp.strftime("%Y-%m-%d-%H-%M") (line 31). -/
def strftimeYmdHM (t : Timestamp) : String :=
  pad4 t.year ++ "-" ++ pad2 t.month ++ "-" ++ pad2 t.day ++ "-" ++
    pad2 t.hour ++ "-" ++ pad2 t.minute

/-- The security_groups constructor argument, whose Python value is None,
a single string, or a list of strings (type-checked at lines 38-42). -/
inductive SecurityGroupsArg where
  | noneGiven
  | single (sg : String)
  | listGiven (sgs : List String)
deriving DecidableEq

/-- The attributes of a ScrubWorkspaceInstance.  instanceState is
self.instance (None until provisioning) and deleted is self.deleted. -/
structure Workspace where
  timeoutMinutes : Nat
  password : String
  source_snapshot : SnapshotRec
  instance_identifier : String
  final_snapshot_identifier : String
  source_instance : InstanceRec
  security_groups : List String
  instanceState : Option InstanceRec
  deleted : Bool
deriving DecidableEq

/-- ScrubWorkspaceInstance.__init__ (lines 13-54).  The caller-side
randomness (random.getrandbits) and wall clock (datetime.now) are inputs;
the resolved snapshot and source instance are the values the two
snapshot_finder calls at lines 22 and 33 return. -/
def mkWorkspace (timestamp : Timestamp) (randbits : Nat)
    (snapshot : SnapshotRec) (srcInstance : InstanceRec) (timeout : Nat)
    (securityGroups : SecurityGroupsArg) : Workspace :=
  { timeoutMinutes := timeout
    password := natToHex randbits
    source_snapshot := snapshot
    instance_identifier :=
      "scrubber-" ++ snapshot.engine ++ "-" ++
        (sha256hex snapshot.dbInstanceIdentifier).take 12
    final_snapshot_identifier :=
      "scrubbed-" ++ snapshot.dbInstanceIdentifier ++ "-" ++
        strftimeYmdHM timestamp
    source_instance := srcInstance
    security_groups :=
      match securityGroups with
      | .single s => [s]
      | .listGiven l => l
      | .noneGiven =>
        (srcInstance.vpcSecurityGroups.filter
          (fun sg => sg.status == "active")).map
          (fun sg => sg.vpcSecurityGroupId)
    instanceState := none
    deleted := false }

/-- Errors of the workspace lifecycle: the TimeoutError raises at
lines 183 and 229, and a non-DBSnapshotNotFound provider error during
final-snapshot polling (line 264). -/
inductive WsError where
  | timeoutError (message : String)
  | providerError
deriving DecidableEq


/-- The poll loop of __create_instance (lines 165-187): polls every 10
seconds while the wall clock is at most the deadline; returns the poll
time at which the status was 'available', or raises TimeoutError once
the deadline has passed. -/
def waitInstanceAvailable (statusAt : Nat → String) (id : String)
    (deadline t : Nat) : Except WsError Nat :=
  if h : t ≤ deadline then
    if statusAt t = "available" then .ok t
    else waitInstanceAvailable statusAt id deadline (t + 10)
  else .error (.timeoutError ("Timed out creating RDS instance " ++ id))
termination_by deadline + 1 - t
decreasing_by omega

/-- The poll loop of __apply_instance_modifications (lines 210-233):
polls PendingModifiedValues every 10 seconds until it is empty, raising
TimeoutError once the deadline has passed. -/
def waitModificationsApplied (pendingAt : Nat → List String) (id : String)
    (deadline t : Nat) : Except WsError Nat :=
  if h : t ≤ deadline then
    if (pendingAt t).length > 0 then
      waitModificationsApplied pendingAt id deadline (t + 10)
    else .ok t
  else .error (.timeoutError ("Timed out applying changes to RDS instance " ++ id))
termination_by deadline + 1 - t
decreasing_by omega

/-- What one describe_db_snapshots poll of __wait_for_final_snapshot
observes: a status string, a DBSnapshotNotFound error (treated as
transient, lines 260-262), or any other provider error (re-raised,
line 264). -/
inductive SnapPollObs where
  | status (s : String)
  | notFoundError
  | otherError
deriving DecidableEq

/-- The poll loop of __wait_for_final_snapshot (lines 235-264).  Unlike
the other two loops, the source has NO raise statement after the while
loop: when the deadline passes without the snapshot becoming available
the method falls through and returns None.  The ok none result models
that silent fall-through; ok (some t) models the return at line 256. -/
def waitFinalSnapshot (obs : Nat → SnapPollObs) (deadline t : Nat) :
    Except WsError (Option Nat) :=
  if _h : t ≤ deadline then
    match obs t with
    | .status s =>
      if s = "available" then .ok (some t)
      else waitFinalSnapshot obs deadline (t + 10)
    | .notFoundError => waitFinalSnapshot obs deadline (t + 10)
    | .otherError => .error .providerError
  else .ok none
termination_by deadline + 1 - t
decreasing_by
  all_goals omega

/-- The RDS calls cleanup and delete_old_snapshots issue (the polling
describe calls are modelled by the observation functions). -/
inductive RdsCall where
  | deleteInstanceWithFinalSnapshot (id finalSnapshotId : String)
  | deleteInstanceSkipFinalSnapshot (id : String)
  | deleteSnapshot (snapshotId : String)
deriving DecidableEq

structure CleanupResult where
  st : Workspace
  calls : List RdsCall
  res : Except WsError Unit
deriving DecidableEq

/-- ScrubWorkspaceInstance.cleanup (lines 78-102): acts only when an
instance exists and the workspace is not already deleted.  With a final
snapshot requested it deletes the instance naming the final snapshot,
sets deleted, then waits for that snapshot (whose polls are given by
obs, starting at wall-clock time t).  Without one it deletes skipping
the final snapshot and sets deleted. -/
def Workspace.cleanup (w : Workspace) (create_final_snapshot : Bool)
    (obs : Nat → SnapPollObs) (t : Nat) : CleanupResult :=
  if w.instanceState.isSome && !w.deleted then
    if create_final_snapshot then
      let w2 := { w with deleted := true }
      let calls := [RdsCall.deleteInstanceWithFinalSnapshot
        w.instance_identifier w.final_snapshot_identifier]
      match waitFinalSnapshot obs (t + 60 * w.timeoutMinutes) t with
      | .ok _ => ⟨w2, calls, .ok ()⟩
      | .error e => ⟨w2, calls, .error e⟩
    else
      ⟨{ w with deleted := true },
        [RdsCall.deleteInstanceSkipFinalSnapshot w.instance_identifier],
        .ok ()⟩
  else
    ⟨w, [], .ok ()⟩

/-- ScrubWorkspaceInstance.delete_old_snapshots (lines 104-138): of the
full describe_db_snapshots(IncludeShared=True) response, keep the
snapshots whose DBInstanceIdentifier is this workspace's identifier,
stable-sort them descending on x.get('SnapshotCreateTime', 0), and
return the ones after the first number_to_keep: exactly those are
deleted, in that order (lines 134-138). -/
def Workspace.delete_old_snapshots (w : Workspace) (number_to_keep : Nat)
    (allSnapshots : List SnapshotRec) : List SnapshotRec :=
  let snapshots := allSnapshots.filter
    (fun s => s.dbInstanceIdentifier == w.instance_identifier)
  (sortSnapsDesc snapshots).drop number_to_keep

/-! ## Postgresql task manager
(src/datascrubber/task_managers/postgresql.py) -/

/-- Does s end with t?  Python strings are sequences of code points, so
this works on the character list. -/
def strEndsWith (s t : String) : Bool := t.data.isSuffixOf s.data

/-- Remove the last n characters of s. -/
def strDropRight (s : String) (n : Nat) : String :=
  (s.data.take (s.data.length - n)).asString

/-- The suffix stripping of _discover_available_dbs (lines 63-65):
re.compile('{0}$'.format(db_suffix)).sub('', database_name).  For a
suffix without regex metacharacters (the configured value is
'_production'), the pattern matches the suffix at the very end of the
name, or - because Python's '$' also matches just before a trailing
newline - immediately before a final newline, and sub removes that one
occurrence. -/
def pgNormalise (suffix name : String) : String :=
  if strEndsWith name suffix then strDropRight name suffix.length
  else if strEndsWith name (suffix ++ "\n") then
    strDropRight name (suffix.length + 1) ++ "\n"
  else name

/-- Python dict assignment d[k] = v on an insertion-ordered association
list: replace the value of an existing key in place, or append. -/
def upsert (k v : String) : List (String × String) → List (String × String)
  | [] => [(k, v)]
  | (k2, v2) :: rest =>
    if k2 = k then (k, v) :: rest else (k2, v2) :: upsert k v rest

/-- The db_realnames mapping built by the loop at lines 63-65:
for each discovered database name, db_realnames[normalised] = name. -/
def mkRealnames (suffix : String) (dbs : List String) :
    List (String × String) :=
  dbs.foldl (fun m name => upsert (pgNormalise suffix name) name m) []

/-- The Postgresql task manager state.  scrub_functions is the registry:
in the source a fixed dict from task name to an opaque routine imported
from datascrubber.tasks; here an association list from task name to a
routine modelled as a transaction on the database state (ok means the
routine ran to completion, error that it raised).  db_realnames is the
mapping _discover_available_dbs records. -/
structure Postgresql (σ ε : Type) where
  scrub_functions : List (String × (σ → Except ε σ))
  db_realnames : List (String × String)

/-- Postgresql.__init__ plus _discover_available_dbs (lines 11-65):
available_dbs is the list of database names the bootstrap query returns
(in order); the suffix is the db_suffix argument, '_production' by
default. -/
def Postgresql.init {σ ε : Type}
    (scrub_functions : List (String × (σ → Except ε σ)))
    (db_suffix : String) (available_dbs : List String) : Postgresql σ ε :=
  { scrub_functions := scrub_functions
    db_realnames := mkRealnames db_suffix available_dbs }

/-- Postgresql.get_viable_tasks (lines 68-76):
set(scrub_functions.keys()) & set(db_realnames.keys()).  An enumeration
of the intersection; all claims about it are membership statements, so
the Python set's iteration order is irrelevant. -/
def Postgresql.get_viable_tasks {σ ε : Type} (m : Postgresql σ ε) :
    List String :=
  (m.scrub_functions.map Prod.fst).filter
    (fun k => (m.db_realnames.lookup k).isSome)

/-- What one run_task call did: the boolean it returned, the resulting
committed state of the target database, and how many connections it
opened. -/
structure RunTaskResult (σ : Type) where
  returned : Bool
  db : σ
  connectionsOpened : Nat
deriving DecidableEq

/-- Postgresql.run_task (lines 78-96): a non-viable task name returns
False with no connection opened; otherwise a connection to the task's
real database is opened and the routine runs in a transaction that is
committed on completion (True) and rolled back, leaving the database
state unchanged, if the routine raised (False).  The final fallback arm
is unreachable for viable tasks, since a viable name is a key of both
dicts. -/
def Postgresql.run_task {σ ε : Type} (m : Postgresql σ ε) (task : String)
    (db : σ) : RunTaskResult σ :=
  if task ∈ m.get_viable_tasks then
    match m.db_realnames.lookup task, m.scrub_functions.lookup task with
    | some _realname, some routine =>
      match routine db with
      | .ok db2 => ⟨true, db2, 1⟩
      | .error _ => ⟨false, db, 1⟩
    | _, _ => ⟨false, db, 1⟩
  else ⟨false, db, 0⟩


/-! ## Concrete fixtures used by witness and counterexample theorems -/

/-- A registry over database state Nat: the publishing_api routine
completes (committing one statement's effect), the email-alert-api
routine raises. -/
def pgRegistry : List (String × (Nat → Except Unit Nat)) :=
  [("publishing_api", fun n => Except.ok (n + 1)),
   ("email-alert-api", fun _ => Except.error ())]

def pgDbs : List String :=
  ["publishing_api_production", "email-alert-api_production",
   "unregistered_production"]

def pgTest : Postgresql Nat Unit :=
  Postgresql.init pgRegistry "_production" pgDbs

def instTest : InstanceRec :=
  { dbInstanceIdentifier := "prod-db"
    endpoint := none
    vpcSecurityGroups := [{ vpcSecurityGroupId := "sg-1", status := "active" }]
    dbSubnetGroupName := "subnet-group"
    masterUsername := "admin"
    dbInstanceStatus := "available" }

def snapTest (sid iid : String) (t : Option Nat) : SnapshotRec :=
  { dbSnapshotIdentifier := sid
    dbInstanceIdentifier := iid
    snapshotCreateTime := t
    status := "available"
    engine := "postgres" }

/-- Provider for the C3 scenario: snap-1 belongs to prod-db, and the
account contains no enumerable instances. -/
def providerC3 : RdsProvider :=
  { snapshotsById := fun s =>
      if s = "snap-1" then [snapTest "snap-1" "prod-db" (some 5)] else []
    snapshotsByInstance := fun _ => []
    allInstances := []
    instanceById := fun _ => none
    dnsCanonical := fun _ => none }

/-- Provider for the C5 witness: prod-db has three snapshots, the one
with the largest creation time listed second. -/
def providerC5 : RdsProvider :=
  { snapshotsById := fun _ => []
    snapshotsByInstance := fun i =>
      if i = "prod-db" then
        [snapTest "snap-5" "prod-db" (some 5),
         snapTest "snap-9" "prod-db" (some 9),
         snapTest "snap-7" "prod-db" (some 7)]
      else []
    allInstances := []
    instanceById := fun _ => none
    dnsCanonical := fun _ => none }

/-- Provider for the C8 counterexample: the resolver already knows a
source instance identifier, but the provider reports that snap-1 belongs
to a different instance. -/
def providerC8 : RdsProvider :=
  { snapshotsById := fun s =>
      if s = "snap-1" then [snapTest "snap-1" "instance-b" (some 3)] else []
    snapshotsByInstance := fun _ => []
    allInstances := []
    instanceById := fun _ => none
    dnsCanonical := fun _ => none }

/-- A provisioned, not yet deleted workspace (used by cleanup and
delete_old_snapshots witnesses).  Built literally: its identifier plays
the role of an arbitrary already-derived workspace identifier. -/
def wsTest : Workspace :=
  { timeoutMinutes := 1
    password := "pw"
    source_snapshot := snapTest "snap-src" "prod-db" (some 1)
    instance_identifier := "scrubber-test"
    final_snapshot_identifier := "scrubbed-prod-db-2026-10-12-00-00"
    source_instance := instTest
    security_groups := ["sg-1"]
    instanceState := some instTest
    deleted := false }

/-- A workspace that was never provisioned (self.instance is None). -/
def wsNever : Workspace := { wsTest with instanceState := none }

/-- The snapshot population for the C6 witness: five snapshots of this
workspace with distinct creation times, listed in descending order, plus
one snapshot of another instance. -/
def allSnapsC6 : List SnapshotRec :=
  [snapTest "s5" "scrubber-test" (some 50),
   snapTest "s4" "scrubber-test" (some 40),
   snapTest "s3" "scrubber-test" (some 30),
   snapTest "s2" "scrubber-test" (some 20),
   snapTest "s1" "scrubber-test" (some 10),
   snapTest "other" "someone-else" (some 99)]

/-! ## Lemmas about the stable descending snapshot sort -/

theorem snapDescLE_trans (a b c : SnapshotRec)
    (h1 : snapDescLE a b) (h2 : snapDescLE b c) : snapDescLE a c := by
  simp only [snapDescLE, decide_eq_true_eq] at h1 h2 ⊢
  omega

theorem snapDescLE_total (a b : SnapshotRec) :
    snapDescLE a b || snapDescLE b a := by
  simp only [snapDescLE, Bool.or_eq_true, decide_eq_true_eq]
  omega

theorem foldl_max_init_le (l : List SnapshotRec) (a : Nat) :
    a ≤ l.foldl (fun m s => max m (snapKey s)) a := by
  induction l generalizing a with
  | nil => simp
  | cons x xs ih =>
    simp only [List.foldl_cons]
    exact le_trans (Nat.le_max_left a (snapKey x)) (ih (max a (snapKey x)))

theorem le_foldl_max (l : List SnapshotRec) (a : Nat) (s : SnapshotRec)
    (h : s ∈ l) : snapKey s ≤ l.foldl (fun m s => max m (snapKey s)) a := by
  induction l generalizing a with
  | nil => cases h
  | cons x xs ih =>
    simp only [List.foldl_cons]
    rcases List.mem_cons.mp h with h | h
    · subst h
      exact le_trans (Nat.le_max_right a (snapKey s))
        (foldl_max_init_le xs (max a (snapKey s)))
    · exact ih (max a (snapKey x)) h

theorem le_maxSnapKey (l : List SnapshotRec) (s : SnapshotRec) (h : s ∈ l) :
    snapKey s ≤ maxSnapKey l :=
  le_foldl_max l 0 s h

theorem foldl_max_attained (l : List SnapshotRec) (a : Nat) :
    l.foldl (fun m s => max m (snapKey s)) a = a ∨
      ∃ s ∈ l, l.foldl (fun m s => max m (snapKey s)) a = snapKey s := by
  induction l generalizing a with
  | nil => left; rfl
  | cons x xs ih =>
    simp only [List.foldl_cons]
    rcases ih (max a (snapKey x)) with h | ⟨s, hs, h⟩
    · rcases Nat.le_total a (snapKey x) with hle | hle
      · right
        exact ⟨x, List.mem_cons_self x xs, by rw [h]; exact Nat.max_eq_right hle⟩
      · left
        rw [h]; exact Nat.max_eq_left hle
    · right
      exact ⟨s, List.mem_cons_of_mem x hs, h⟩

theorem maxSnapKey_attained (l : List SnapshotRec) (h : l ≠ []) :
    ∃ s ∈ l, maxSnapKey l = snapKey s := by
  rcases foldl_max_attained l 0 with h0 | hs
  · cases l with
    | nil => exact absurd rfl h
    | cons x xs =>
      refine ⟨x, List.mem_cons_self x xs, ?_⟩
      have hx := le_maxSnapKey (x :: xs) x (List.mem_cons_self x xs)
      have h0' : maxSnapKey (x :: xs) = 0 := h0
      omega
  · exact hs

theorem head?_filter_eq_find? (p : SnapshotRec → Bool) (l : List SnapshotRec) :
    (l.filter p).head? = l.find? p := by
  induction l with
  | nil => rfl
  | cons x xs ih =>
    by_cases h : p x
    · simp [List.filter_cons, List.find?_cons, h]
    · simp only [List.filter_cons, List.find?_cons]
      rw [if_neg (by simp [h]), ih]
      cases hpx : p x with
      | true => exact absurd hpx h
      | false => rfl

theorem sortSnapsDesc_filter_max (l : List SnapshotRec) :
    (sortSnapsDesc l).filter (fun s => decide (maxSnapKey l ≤ snapKey s)) =
      l.filter (fun s => decide (maxSnapKey l ≤ snapKey s)) := by
  set p : SnapshotRec → Bool := fun s => decide (maxSnapKey l ≤ snapKey s) with hp
  have hallp : ∀ a ∈ l.filter p, p a := fun a ha => List.of_mem_filter ha
  have hpw : (l.filter p).Pairwise (fun a b => snapDescLE a b = true) := by
    apply List.pairwise_of_forall_mem_list
    intro a ha b hb
    have hka : maxSnapKey l ≤ snapKey a := by
      have := hallp a ha; simpa [hp] using this
    have hkb : snapKey b ≤ maxSnapKey l :=
      le_maxSnapKey l b (List.mem_of_mem_filter hb)
    simp only [snapDescLE, decide_eq_true_eq]
    omega
  have hstab : List.Sublist (l.filter p) (sortSnapsDesc l) :=
    List.sublist_mergeSort snapDescLE_trans snapDescLE_total hpw
      (List.filter_sublist l)
  have hidem : (l.filter p).filter p = l.filter p :=
    List.filter_eq_self.mpr hallp
  have hsub2 : List.Sublist (l.filter p) ((sortSnapsDesc l).filter p) := by
    have := hstab.filter p
    rwa [hidem] at this
  have hlen : (l.filter p).length = ((sortSnapsDesc l).filter p).length :=
    (((List.mergeSort_perm l snapDescLE).filter p).length_eq).symm
  exact (hsub2.eq_of_length hlen).symm

theorem sortSnapsDesc_head? (l : List SnapshotRec) (h : l ≠ []) :
    (sortSnapsDesc l).head? =
      l.find? (fun s => decide (maxSnapKey l ≤ snapKey s)) := by
  set p : SnapshotRec → Bool := fun s => decide (maxSnapKey l ≤ snapKey s) with hp
  have hne : sortSnapsDesc l ≠ [] := by
    intro hnil
    have := (List.mergeSort_perm l snapDescLE).length_eq
    rw [sortSnapsDesc] at hnil
    rw [hnil] at this
    exact h (List.eq_nil_of_length_eq_zero this.symm)
  obtain ⟨mr, rest, heq⟩ := List.exists_cons_of_ne_nil hne
  have hmrl : mr ∈ l := by
    have : mr ∈ sortSnapsDesc l := by rw [heq]; exact List.mem_cons_self mr rest
    exact List.mem_mergeSort.mp this
  have hpmr : p mr = true := by
    obtain ⟨sm, hsm, hM⟩ := maxSnapKey_attained l h
    have hsm' : sm ∈ sortSnapsDesc l := List.mem_mergeSort.mpr hsm
    rw [heq] at hsm'
    rcases List.mem_cons.mp hsm' with hc | hc
    · subst hc
      simp [hp, hM]
    · have hsorted : (sortSnapsDesc l).Pairwise
          (fun a b => snapDescLE a b = true) :=
        List.sorted_mergeSort snapDescLE_trans snapDescLE_total l
      rw [heq] at hsorted
      have hle : snapDescLE mr sm = true :=
        (List.pairwise_cons.mp hsorted).1 sm hc
      simp only [snapDescLE, decide_eq_true_eq] at hle
      have : snapKey mr ≤ maxSnapKey l := le_maxSnapKey l mr hmrl
      simp only [hp, decide_eq_true_eq]
      omega
  have hfsort : (sortSnapsDesc l).filter p = mr :: rest.filter p := by
    rw [heq, List.filter_cons, if_pos hpmr]
  have hfind : l.find? p = some mr := by
    rw [← head?_filter_eq_find?, ← sortSnapsDesc_filter_max l, hfsort]
    rfl
  rw [heq, hfind]
  rfl

theorem mem_drop_sorted_iff (L : List SnapshotRec)
    (hs : L.Pairwise (fun a b => snapDescLE a b = true))
    (hn : (L.map snapKey).Nodup) (k : Nat) (s : SnapshotRec) (hm : s ∈ L) :
    s ∈ L.drop k ↔ k ≤ L.countP (fun t => decide (snapKey s < snapKey t)) := by
  induction L generalizing k with
  | nil => cases hm
  | cons x xs ih =>
    have hpair := (List.pairwise_cons.mp hs).1
    have hs' := (List.pairwise_cons.mp hs).2
    have hmap : (List.map snapKey (x :: xs)).Nodup := hn
    rw [List.map_cons, List.nodup_cons] at hmap
    have hxnot : snapKey x ∉ xs.map snapKey := hmap.1
    have hn' : (xs.map snapKey).Nodup := hmap.2
    cases k with
    | zero => simpa using hm
    | succ k =>
      rw [List.drop_succ_cons]
      rcases List.mem_cons.mp hm with he | hmem
      · subst he
        constructor
        · intro hdrop
          exact absurd (List.mem_map_of_mem snapKey (List.mem_of_mem_drop hdrop))
            hxnot
        · intro hcount
          have h0 : (s :: xs).countP (fun t => decide (snapKey s < snapKey t)) = 0 := by
            rw [List.countP_eq_zero]
            intro t ht
            rcases List.mem_cons.mp ht with he | ht'
            · subst he; simp
            · have := hpair t ht'
              simp only [snapDescLE, decide_eq_true_eq] at this
              simp only [decide_eq_true_eq]
              omega
          omega
      · have hles : snapKey s ≤ snapKey x := by
          have := hpair s hmem
          simpa [snapDescLE] using this
        have hnes : snapKey x ≠ snapKey s := by
          intro he
          exact hxnot (he ▸ List.mem_map_of_mem snapKey hmem)
        have hlt : snapKey s < snapKey x := by omega
        rw [ih hs' hn' k hmem,
          List.countP_cons_of_pos _ _ (by simpa using hlt)]
        omega

set_option maxRecDepth 100000 in
/-- Implementation check against the standard test vector for "abc". -/
theorem sha256hex_abc :
    sha256hex "abc" =
      "ba7816bf8f01cfea414140de5dae2223b00361a396177a9cb410ff61f20015ad" := by
  decide

/-! ## Lemmas about the db_realnames association list -/

theorem lookup_upsert (k v k2 : String) (m : List (String × String)) :
    (upsert k v m).lookup k2 = if k2 = k then some v else m.lookup k2 := by
  induction m with
  | nil =>
    rw [upsert]
    by_cases h : k2 = k
    · subst h; simp
    · have hb : (k2 == k) = false := beq_false_of_ne h
      simp [List.lookup_cons, hb, h]
  | cons p rest ih =>
    obtain ⟨k3, v3⟩ := p
    rw [upsert]
    by_cases h3 : k3 = k
    · rw [if_pos h3]
      by_cases h : k2 = k
      · subst h; simp [h3]
      · have hb : (k2 == k) = false := beq_false_of_ne h
        have hb3 : (k2 == k3) = false := beq_false_of_ne (h3 ▸ h)
        simp [List.lookup_cons, hb, hb3, h]
    · rw [if_neg h3]
      by_cases h4 : k2 = k3
      · have hk : ¬ k2 = k := fun hc => h3 (h4 ▸ hc)
        have hb4 : (k2 == k3) = true := beq_iff_eq.mpr h4
        simp [List.lookup_cons, hb4, hk]
      · have hb4 : (k2 == k3) = false := beq_false_of_ne h4
        simp [List.lookup_cons, hb4, ih]

theorem lookup_mkRealnames_aux (suffix : String) (dbs : List String)
    (m : List (String × String)) (k : String) (v : String) :
    (dbs.foldl (fun m name => upsert (pgNormalise suffix name) name m)
      m).lookup k = some v →
    m.lookup k = some v ∨ (v ∈ dbs ∧ pgNormalise suffix v = k) := by
  induction dbs generalizing m with
  | nil => intro h; exact Or.inl h
  | cons d rest ih =>
    intro h
    simp only [List.foldl_cons] at h
    rcases ih (upsert (pgNormalise suffix d) d m) h with h2 | h2
    · rw [lookup_upsert] at h2
      by_cases hk : k = pgNormalise suffix d
      · rw [if_pos hk] at h2
        have hdv : d = v := by injection h2
        subst hdv
        exact Or.inr ⟨List.mem_cons_self d rest, hk.symm⟩
      · rw [if_neg hk] at h2
        exact Or.inl h2
    · exact Or.inr ⟨List.mem_cons_of_mem d h2.1, h2.2⟩

/-- Every entry of db_realnames maps the normalised form of an actually
discovered database name to that name. -/
theorem lookup_mkRealnames (suffix : String) (dbs : List String)
    (k v : String) (h : (mkRealnames suffix dbs).lookup k = some v) :
    v ∈ dbs ∧ pgNormalise suffix v = k := by
  rcases lookup_mkRealnames_aux suffix dbs [] k v h with h2 | h2
  · simp [List.lookup] at h2
  · exact h2

theorem lookup_isSome_mono (k k2 v2 : String) (m : List (String × String))
    (h : (m.lookup k).isSome) : ((upsert k2 v2 m).lookup k).isSome := by
  rw [lookup_upsert]
  by_cases hk : k = k2
  · simp [hk]
  · simpa [hk] using h

theorem lookup_foldl_isSome_mono (suffix : String) (dbs : List String)
    (m : List (String × String)) (k : String)
    (h : (m.lookup k).isSome) :
    ((dbs.foldl (fun m name => upsert (pgNormalise suffix name) name m)
      m).lookup k).isSome := by
  induction dbs generalizing m with
  | nil => exact h
  | cons d rest ih =>
    simp only [List.foldl_cons]
    exact ih _ (lookup_isSome_mono k (pgNormalise suffix d) d m h)

theorem mem_foldl_realnames (suffix : String) (dbs : List String)
    (m : List (String × String)) (d : String) (h : d ∈ dbs) :
    ((dbs.foldl (fun m name => upsert (pgNormalise suffix name) name m)
      m).lookup (pgNormalise suffix d)).isSome := by
  induction dbs generalizing m with
  | nil => cases h
  | cons x rest ih =>
    simp only [List.foldl_cons]
    rcases List.mem_cons.mp h with he | hm
    · subst he
      apply lookup_foldl_isSome_mono
      rw [lookup_upsert]
      simp
    · exact ih _ hm

/-- Every discovered database name has its normalised form present as a
key of db_realnames. -/
theorem mem_mkRealnames (suffix : String) (dbs : List String) (d : String)
    (h : d ∈ dbs) :
    ((mkRealnames suffix dbs).lookup (pgNormalise suffix d)).isSome :=
  mem_foldl_realnames suffix dbs [] d h

/-! ## String suffix lemmas -/

theorem strEndsWith_elim (s t : String) (h : strEndsWith s t = true) :
    strDropRight s t.length ++ t = s := by
  rw [strEndsWith] at h
  obtain ⟨pre, hpre⟩ := List.isSuffixOf_iff_suffix.mp h
  have htl : t.length = t.data.length := rfl
  have hlen : s.data.length - t.length = pre.length := by
    have hl := congrArg List.length hpre
    rw [List.length_append] at hl
    omega
  apply String.ext
  rw [String.data_append]
  have hdd : (strDropRight s t.length).data = pre := by
    show (s.data.take (s.data.length - t.length)).asString.data = pre
    have htake : s.data.take (s.data.length - t.length) = pre := by
      rw [hlen, ← hpre]
      exact List.take_left' rfl
    rw [htake]
    rfl
  rw [hdd, hpre]

/-! ## Claim C10: database discovery suffix stripping -/

/-- C10 counterexample: Python's '$' also matches just before a final
newline, so the discovered name "a_production\n", which does not end in
the suffix, is still rewritten: its logical name is "a\n", not the full
name, contradicting the claim's only-at-the-end / otherwise-unchanged
dichotomy. -/
theorem pgNormalise_newline_counterexample :
    strEndsWith "a_production\n" "_production" = false ∧
    pgNormalise "_production" "a_production\n" = "a\n" ∧
    ("a\n" : String) ≠ "a_production\n" :=
  ⟨by decide, by decide, by decide⟩

/-- C10 (amended): discovery strips the configured suffix when it is at
the very end of the discovered name (the logical name concatenated with
the suffix is the name); a name ending in the suffix followed by one
final newline also has that occurrence stripped (Python regex '$'
semantics); all other names are unchanged; and the recorded mapping
sends each of its logical names to an actually discovered name whose
normalisation is that logical name, every discovered name having its
logical name present as a key. -/
theorem pg_discovery_spec (suffix : String) (dbs : List String) :
    (∀ name, strEndsWith name suffix = true →
      pgNormalise suffix name ++ suffix = name) ∧
    (∀ name, strEndsWith name suffix = false →
      strEndsWith name (suffix ++ "\n") = false →
      pgNormalise suffix name = name) ∧
    (∀ name, strEndsWith name suffix = false →
      strEndsWith name (suffix ++ "\n") = true →
      ∃ pre, name = pre ++ suffix ++ "\n" ∧
        pgNormalise suffix name = pre ++ "\n") ∧
    (∀ k v, (mkRealnames suffix dbs).lookup k = some v →
      v ∈ dbs ∧ pgNormalise suffix v = k) ∧
    (∀ d ∈ dbs,
      ((mkRealnames suffix dbs).lookup (pgNormalise suffix d)).isSome) := by
  refine ⟨?_, ?_, ?_, ?_, ?_⟩
  · intro name h
    rw [pgNormalise, if_pos h]
    exact strEndsWith_elim name suffix h
  · intro name h1 h2
    simp [pgNormalise, h1, h2]
  · intro name h1 h2
    refine ⟨strDropRight name (suffix.length + 1), ?_, ?_⟩
    · have he := strEndsWith_elim name (suffix ++ "\n") h2
      rw [String.length_append] at he
      rw [String.append_assoc]
      exact he.symm
    · simp [pgNormalise, h1, h2]
  · exact fun k v h => lookup_mkRealnames suffix dbs k v h
  · exact fun d h => mem_mkRealnames suffix dbs d h

/-- C10 witness: the default suffix on a regular production database
name, at concrete inputs of the amended claim. -/
theorem pg_discovery_spec_witness :
    pgNormalise "_production" "publishing_api_production" ++ "_production" =
      "publishing_api_production" ∧
    pgNormalise "_production" "whoopsie" = "whoopsie" ∧
    ((mkRealnames "_production" ["publishing_api_production"]).lookup
      "publishing_api").isSome := by
  refine ⟨?_, ?_, ?_⟩
  · exact (pg_discovery_spec "_production" ["publishing_api_production"]).1
      "publishing_api_production" (by decide)
  · exact (pg_discovery_spec "_production" ["publishing_api_production"]).2.1
      "whoopsie" (by decide) (by decide)
  · have h := (pg_discovery_spec "_production"
      ["publishing_api_production"]).2.2.2.2 "publishing_api_production"
      (by decide)
    rwa [(by decide : pgNormalise "_production" "publishing_api_production" =
      "publishing_api")] at h

/-! ## Claim C4: the viable task set is the registry-discovery
intersection -/

theorem mkRealnames_key_iff (suffix : String) (dbs : List String)
    (k : String) :
    ((mkRealnames suffix dbs).lookup k).isSome = true ↔
      ∃ d ∈ dbs, pgNormalise suffix d = k := by
  constructor
  · intro h
    obtain ⟨v, hv⟩ := Option.isSome_iff_exists.mp h
    obtain ⟨hm, hn⟩ := lookup_mkRealnames suffix dbs k v hv
    exact ⟨v, hm, hn⟩
  · rintro ⟨d, hd, rfl⟩
    exact mem_mkRealnames suffix dbs d hd

/-- C4: membership in get_viable_tasks is exactly membership in the
registry's keys together with being the logical name of a discovered
database; appending a discovered database whose logical name is not a
registry key leaves the viable task list unchanged; appending a registry
entry whose name is no discovered database's logical name leaves it
unchanged as well. -/
theorem get_viable_tasks_spec {σ ε : Type}
    (registry : List (String × (σ → Except ε σ)))
    (suffix : String) (dbs : List String) :
    (∀ t, t ∈ (Postgresql.init registry suffix dbs).get_viable_tasks ↔
      (t ∈ registry.map Prod.fst ∧ ∃ d ∈ dbs, pgNormalise suffix d = t)) ∧
    (∀ d, pgNormalise suffix d ∉ registry.map Prod.fst →
      (Postgresql.init registry suffix (dbs ++ [d])).get_viable_tasks =
        (Postgresql.init registry suffix dbs).get_viable_tasks) ∧
    (∀ k f, (∀ d ∈ dbs, pgNormalise suffix d ≠ k) →
      (Postgresql.init (registry ++ [(k, f)]) suffix dbs).get_viable_tasks =
        (Postgresql.init registry suffix dbs).get_viable_tasks) := by
  refine ⟨?_, ?_, ?_⟩
  · intro t
    simp only [Postgresql.get_viable_tasks, Postgresql.init, List.mem_filter]
    rw [mkRealnames_key_iff]
  · intro d hd
    have hrn : mkRealnames suffix (dbs ++ [d]) =
        upsert (pgNormalise suffix d) d (mkRealnames suffix dbs) := by
      rw [mkRealnames, List.foldl_append]
      rfl
    simp only [Postgresql.get_viable_tasks, Postgresql.init]
    rw [hrn]
    apply List.filter_congr
    intro t ht
    rw [lookup_upsert, if_neg (fun hc => hd (by rw [← hc]; exact ht))]
  · intro k f hk
    simp only [Postgresql.get_viable_tasks, Postgresql.init, List.map_append,
      List.filter_append]
    have hnone : ((mkRealnames suffix dbs).lookup k).isSome = false := by
      rw [Bool.eq_false_iff]
      intro hc
      obtain ⟨d, hd, hnd⟩ := (mkRealnames_key_iff suffix dbs k).mp hc
      exact hk d hd hnd
    simp [hnone]

/-- C4 witness: the intersection membership, and invariance under an
unmatched database, at the concrete test registry. -/
theorem get_viable_tasks_spec_witness :
    "publishing_api" ∈
      (Postgresql.init pgRegistry "_production" pgDbs).get_viable_tasks ∧
    (Postgresql.init pgRegistry "_production"
      (pgDbs ++ ["extra_db"])).get_viable_tasks =
      (Postgresql.init pgRegistry "_production" pgDbs).get_viable_tasks := by
  constructor
  · exact ((get_viable_tasks_spec pgRegistry "_production" pgDbs).1
      "publishing_api").mpr
      ⟨by decide, "publishing_api_production", by decide, by decide⟩
  · exact (get_viable_tasks_spec pgRegistry "_production" pgDbs).2.1
      "extra_db" (by decide)

/-! ## Claim C1: run_task viability gate, commit and rollback -/

/-- C1: run_task on a non-viable name returns False having opened no
connection and leaving the database untouched; on a viable name whose
registered routine completes it opens one connection, commits the
routine's effect and returns True; on a viable name whose routine raises
it opens one connection, rolls back (the database state is unchanged)
and returns False - in every case run_task returns rather than
propagating the routine's exception, so a failing task aborts neither
the runner nor later tasks. -/
theorem run_task_spec {σ ε : Type} (m : Postgresql σ ε) (task : String)
    (db : σ) :
    (task ∉ m.get_viable_tasks → m.run_task task db = ⟨false, db, 0⟩) ∧
    (∀ routine, task ∈ m.get_viable_tasks →
      m.scrub_functions.lookup task = some routine →
      (∀ db2, routine db = .ok db2 → m.run_task task db = ⟨true, db2, 1⟩) ∧
      (∀ e, routine db = .error e → m.run_task task db = ⟨false, db, 1⟩)) := by
  constructor
  · intro h
    rw [Postgresql.run_task, if_neg h]
  · intro routine hv hlook
    have hv2 : task ∈ (m.scrub_functions.map Prod.fst).filter
        (fun k => (m.db_realnames.lookup k).isSome) := hv
    have hpred : ((m.db_realnames.lookup task).isSome) = true := by
      simpa using List.of_mem_filter hv2
    obtain ⟨rn, hrn⟩ := Option.isSome_iff_exists.mp hpred
    have hred : m.run_task task db =
        match routine db with
        | .ok db2 => ⟨true, db2, 1⟩
        | .error _ => ⟨false, db, 1⟩ := by
      rw [Postgresql.run_task, if_pos hv, hrn, hlook]
    constructor
    · intro db2 hok
      rw [hred, hok]
    · intro e herr
      rw [hred, herr]

/-- C1 witness: on the concrete manager, a completing routine commits
and returns True, a raising routine rolls back and returns False, and
an unknown task returns False without opening a connection. -/
theorem run_task_spec_witness :
    pgTest.run_task "publishing_api" 5 = ⟨true, 6, 1⟩ ∧
    pgTest.run_task "email-alert-api" 5 = ⟨false, 5, 1⟩ ∧
    pgTest.run_task "absent" 5 = ⟨false, 5, 0⟩ := by
  refine ⟨?_, ?_, ?_⟩
  · exact ((run_task_spec pgTest "publishing_api" 5).2
      (fun n => Except.ok (n + 1)) (by decide) rfl).1 6 rfl
  · exact ((run_task_spec pgTest "email-alert-api" 5).2
      (fun _ => Except.error ()) (by decide) rfl).2 () rfl
  · exact (run_task_spec pgTest "absent" 5).1 (by decide)

/-! ## Claim C7: the workspace identifier is a pure function of
(engine, source-instance identifier) -/

/-- C7: two constructions whose resolved snapshots agree on Engine and
DBInstanceIdentifier derive the same workspace instance identifier,
whatever the wall-clock time, the generated credential randomness, the
source instance, the timeout and the security-group argument are. -/
theorem instance_identifier_pure (t1 t2 : Timestamp) (r1 r2 : Nat)
    (s1 s2 : SnapshotRec) (i1 i2 : InstanceRec) (m1 m2 : Nat)
    (g1 g2 : SecurityGroupsArg)
    (heng : s1.engine = s2.engine)
    (hid : s1.dbInstanceIdentifier = s2.dbInstanceIdentifier) :
    (mkWorkspace t1 r1 s1 i1 m1 g1).instance_identifier =
      (mkWorkspace t2 r2 s2 i2 m2 g2).instance_identifier := by
  simp only [mkWorkspace, heng, hid]

/-- C7 witness: two constructions at different times, randomness,
timeouts and security-group arguments, over snapshots of the same engine
and source instance. -/
theorem instance_identifier_pure_witness :
    (mkWorkspace ⟨2026, 10, 12, 9, 30⟩ 17 (snapTest "snap-a" "prod-db" (some 1))
      instTest 90 SecurityGroupsArg.noneGiven).instance_identifier =
    (mkWorkspace ⟨2027, 1, 1, 0, 0⟩ 999999 (snapTest "snap-b" "prod-db" none)
      instTest 5 (SecurityGroupsArg.single "sg-x")).instance_identifier :=
  instance_identifier_pure _ _ _ _ _ _ _ _ _ _ _ _ rfl rfl

/-! ## Claim C9: cleanup is a no-op on unprovisioned or already-deleted
workspaces -/

theorem cleanup_noop (w : Workspace) (b : Bool) (obs : Nat → SnapPollObs)
    (t : Nat) (h : (w.instanceState.isSome && !w.deleted) = false) :
    w.cleanup b obs t = ⟨w, [], .ok ()⟩ := by
  simp [Workspace.cleanup, h]

/-- C9: when no instance was ever provisioned or the workspace is
already deleted, cleanup issues no provider calls, changes no state and
returns normally; and after any cleanup call, a second cleanup is such a
no-op, so double deletion is impossible. -/
theorem cleanup_spec (w : Workspace) (b : Bool) (obs : Nat → SnapPollObs)
    (t : Nat) :
    ((w.instanceState = none ∨ w.deleted = true) →
      w.cleanup b obs t = ⟨w, [], .ok ()⟩) ∧
    (∀ b2 obs2 t2,
      (w.cleanup b obs t).st.cleanup b2 obs2 t2 =
        ⟨(w.cleanup b obs t).st, [], .ok ()⟩) := by
  constructor
  · intro h
    apply cleanup_noop
    rcases h with h | h <;> simp [h]
  · intro b2 obs2 t2
    apply cleanup_noop
    rw [Workspace.cleanup]
    by_cases hc : (w.instanceState.isSome && !w.deleted) = true
    · rw [if_pos hc]
      cases b with
      | false => simp
      | true =>
        cases hw : waitFinalSnapshot obs (t + 60 * w.timeoutMinutes) t with
        | ok v => simp [hw]
        | error e => simp [hw]
    · rw [if_neg hc]
      simpa using hc

/-- C9 witness: a never-provisioned workspace is untouched by cleanup,
and cleaning up a provisioned workspace twice makes the second call a
no-op. -/
theorem cleanup_spec_witness :
    wsNever.cleanup true (fun _ => SnapPollObs.status "creating") 0 =
      ⟨wsNever, [], .ok ()⟩ ∧
    (wsTest.cleanup false (fun _ => SnapPollObs.status "creating") 0).st.cleanup
      false (fun _ => SnapPollObs.status "creating") 0 =
      ⟨(wsTest.cleanup false (fun _ => SnapPollObs.status "creating") 0).st,
        [], .ok ()⟩ := by
  constructor
  · exact (cleanup_spec wsNever true (fun _ => SnapPollObs.status "creating") 0).1
      (Or.inl rfl)
  · exact (cleanup_spec wsTest false (fun _ => SnapPollObs.status "creating") 0).2
      false (fun _ => SnapPollObs.status "creating") 0

/-! ## Claim C2: bounded poll loops and their timeout behaviour -/

/-- C2: the restore wait and the modification wait raise TimeoutError
once the deadline (start + 60 * timeout-in-minutes) passes without the
awaited condition, and return successfully when a poll at or before the
deadline observes it; but the final-snapshot wait, whose loop has no
raise statement after it in the source, returns silently (ok none) in
the same never-satisfied situation instead of raising - at a deadline of
60 (timeout 1 minute, polls at 0,10,...,60) with a snapshot that always
reports status creating. -/
theorem wait_loops_timeout_divergence :
    waitFinalSnapshot (fun _ => SnapPollObs.status "creating") 60 0 =
      .ok none ∧
    waitInstanceAvailable (fun _ => "creating") "scrubber-x" 60 0 =
      .error (.timeoutError
        ("Timed out creating RDS instance " ++ "scrubber-x")) ∧
    waitModificationsApplied (fun _ => ["MasterUserPassword"]) "scrubber-x"
      60 0 =
      .error (.timeoutError
        ("Timed out applying changes to RDS instance " ++ "scrubber-x")) ∧
    waitFinalSnapshot (fun n => if n < 20 then SnapPollObs.notFoundError
      else SnapPollObs.status "available") 60 0 = .ok (some 20) ∧
    waitInstanceAvailable (fun n => if n < 20 then "creating"
      else "available") "scrubber-x" 60 0 = .ok 20 ∧
    waitModificationsApplied (fun n => if n < 20 then ["MasterUserPassword"]
      else []) "scrubber-x" 60 0 = .ok 20 := by
  refine ⟨?_, ?_, ?_, ?_, ?_, ?_⟩ <;>
    simp [waitFinalSnapshot, waitInstanceAvailable, waitModificationsApplied]

/-! ## Claim C5: deterministic most-recent snapshot selection -/

theorem gsii_cached (st : Finder) (P : RdsProvider) (iid : String)
    (h : st.source_instance_identifier = some iid) :
    RdsSnapshotFinder.get_source_instance_identifier st P =
      ⟨st, [], .ok iid⟩ := by
  rw [RdsSnapshotFinder.get_source_instance_identifier, h]

/-- C5: when get_snapshot_identifier has to choose among the snapshots
the provider lists for the source instance, the chosen snapshot is the
first one, in provider-returned order, whose creation-time key attains
the maximum (so ties go to the provider-returned order); it attains the
maximal key, with distinct creation-time keys it is the unique maximal
element, and a snapshot with no creation time has the minimal key (it is
treated as oldest). -/
theorem get_snapshot_identifier_most_recent (st : Finder) (P : RdsProvider)
    (iid : String)
    (h1 : st.snapshot_identifier = none)
    (h2 : st.source_instance_identifier = some iid)
    (h3 : P.snapshotsByInstance iid ≠ []) :
    ∃ chosen,
      (P.snapshotsByInstance iid).find?
        (fun s => decide (maxSnapKey (P.snapshotsByInstance iid) ≤ snapKey s))
        = some chosen ∧
      (RdsSnapshotFinder.get_snapshot_identifier st P).res =
        .ok chosen.dbSnapshotIdentifier ∧
      chosen ∈ P.snapshotsByInstance iid ∧
      (∀ s ∈ P.snapshotsByInstance iid, snapKey s ≤ snapKey chosen) ∧
      (((P.snapshotsByInstance iid).map snapKey).Nodup →
        ∀ s ∈ P.snapshotsByInstance iid,
          (∀ s2 ∈ P.snapshotsByInstance iid, snapKey s2 ≤ snapKey s) →
          s = chosen) ∧
      (∀ s s2 : SnapshotRec, s.snapshotCreateTime = none →
        snapKey s ≤ snapKey s2) := by
  have hne : sortSnapsDesc (P.snapshotsByInstance iid) ≠ [] := by
    intro hnil
    have hlen := (List.mergeSort_perm (P.snapshotsByInstance iid)
      snapDescLE).length_eq
    rw [sortSnapsDesc] at hnil
    rw [hnil] at hlen
    exact h3 (List.eq_nil_of_length_eq_zero hlen.symm)
  obtain ⟨mr, rest, heq⟩ := List.exists_cons_of_ne_nil hne
  have hfind : (P.snapshotsByInstance iid).find?
      (fun s => decide (maxSnapKey (P.snapshotsByInstance iid) ≤ snapKey s))
      = some mr := by
    rw [← sortSnapsDesc_head? (P.snapshotsByInstance iid) h3, heq]
    rfl
  have hmem : mr ∈ P.snapshotsByInstance iid := by
    have : mr ∈ sortSnapsDesc (P.snapshotsByInstance iid) := by
      rw [heq]; exact List.mem_cons_self mr rest
    exact List.mem_mergeSort.mp this
  have hmax : maxSnapKey (P.snapshotsByInstance iid) ≤ snapKey mr := by
    have := List.find?_some hfind
    simpa using this
  refine ⟨mr, hfind, ?_, hmem, ?_, ?_, ?_⟩
  · rw [RdsSnapshotFinder.get_snapshot_identifier, h1,
      gsii_cached st P iid h2]
    simp only [heq]
  · intro s hs
    exact le_trans (le_maxSnapKey _ s hs) hmax
  · intro hnd s hs hsmax
    have h12 : snapKey s ≤ snapKey mr :=
      le_trans (le_maxSnapKey _ s hs) hmax
    have h21 : snapKey mr ≤ snapKey s := hsmax mr hmem
    exact List.inj_on_of_nodup_map hnd hs hmem (Nat.le_antisymm h12 h21)
  · intro s s2 hnone
    simp [snapKey, hnone]

/-- C5 witness: of three snapshots with distinct creation times 5, 9, 7
(the maximum listed second), the selection is snap-9. -/
theorem get_snapshot_identifier_most_recent_witness :
    (RdsSnapshotFinder.get_snapshot_identifier
      (mkFinder none (some "prod-db") none) providerC5).res =
      .ok "snap-9" := by
  obtain ⟨chosen, hfind, hres, -, -, -, -⟩ :=
    get_snapshot_identifier_most_recent
      (mkFinder none (some "prod-db") none) providerC5 "prod-db"
      rfl rfl (by decide)
  rw [(by decide :
    (providerC5.snapshotsByInstance "prod-db").find?
      (fun s => decide (maxSnapKey (providerC5.snapshotsByInstance "prod-db") ≤
        snapKey s)) = some (snapTest "snap-9" "prod-db" (some 9)))] at hfind
  injection hfind with h9
  rw [← h9] at hres
  exact hres

/-! ## Claim C6: retention trimming deletes exactly the old snapshots of
this workspace -/

/-- C6: delete_old_snapshots deletes only snapshots of the listed
population whose owning instance is this workspace's identifier (ones
belonging to other instances are never deleted), and - when the matching
snapshots' creation-time keys are distinct - it deletes exactly those
matching snapshots that have at least keep_n strictly newer matching
snapshots, i.e. the ones outside the keep_n most recent (a missing
creation time counting as oldest via its 0 key). -/
theorem delete_old_snapshots_spec (w : Workspace) (keep : Nat)
    (allSnapshots : List SnapshotRec) :
    (∀ s ∈ w.delete_old_snapshots keep allSnapshots,
      s ∈ allSnapshots ∧ s.dbInstanceIdentifier = w.instance_identifier) ∧
    (∀ s ∈ allSnapshots, s.dbInstanceIdentifier ≠ w.instance_identifier →
      s ∉ w.delete_old_snapshots keep allSnapshots) ∧
    (((allSnapshots.filter (fun s =>
        s.dbInstanceIdentifier == w.instance_identifier)).map snapKey).Nodup →
      ∀ s ∈ allSnapshots, s.dbInstanceIdentifier = w.instance_identifier →
        (s ∈ w.delete_old_snapshots keep allSnapshots ↔
          keep ≤ (allSnapshots.filter (fun t =>
            t.dbInstanceIdentifier == w.instance_identifier)).countP
            (fun t => decide (snapKey s < snapKey t)))) := by
  have hperm := List.mergeSort_perm
    (allSnapshots.filter (fun s =>
      s.dbInstanceIdentifier == w.instance_identifier)) snapDescLE
  have hmemof : ∀ s, s ∈ w.delete_old_snapshots keep allSnapshots →
      s ∈ allSnapshots ∧ s.dbInstanceIdentifier = w.instance_identifier := by
    intro s hs
    have h1 : s ∈ sortSnapsDesc (allSnapshots.filter (fun s =>
        s.dbInstanceIdentifier == w.instance_identifier)) :=
      List.mem_of_mem_drop hs
    have h2 := List.mem_mergeSort.mp h1
    have h3 := List.mem_filter.mp h2
    exact ⟨h3.1, by simpa using h3.2⟩
  refine ⟨hmemof, ?_, ?_⟩
  · intro s _ hne hmem
    exact hne (hmemof s hmem).2
  · intro hnd s hs hid
    have hmemf : s ∈ allSnapshots.filter (fun s =>
        s.dbInstanceIdentifier == w.instance_identifier) :=
      List.mem_filter.mpr ⟨hs, by simpa using hid⟩
    have hsorted := List.sorted_mergeSort snapDescLE_trans snapDescLE_total
      (allSnapshots.filter (fun s =>
        s.dbInstanceIdentifier == w.instance_identifier))
    have hnd2 : ((sortSnapsDesc (allSnapshots.filter (fun s =>
        s.dbInstanceIdentifier == w.instance_identifier))).map snapKey).Nodup := by
      exact ((hperm.map snapKey).nodup_iff).mpr hnd
    have hmems : s ∈ sortSnapsDesc (allSnapshots.filter (fun s =>
        s.dbInstanceIdentifier == w.instance_identifier)) :=
      List.mem_mergeSort.mpr hmemf
    have hiff := mem_drop_sorted_iff _ hsorted hnd2 keep s hmems
    have hgoal : w.delete_old_snapshots keep allSnapshots =
        ((allSnapshots.filter (fun s =>
          s.dbInstanceIdentifier == w.instance_identifier)).mergeSort
            snapDescLE).drop keep := rfl
    have hcount := hperm.countP_eq (fun t => decide (snapKey s < snapKey t))
    rw [hgoal, hiff, hcount]

/-- C6 witness: with keep_n = 2 over five snapshots of this workspace
with distinct descending creation times plus one foreign snapshot, an
old snapshot (s1) is deleted, the newest (s5) is kept, and the foreign
snapshot is never deleted. -/
theorem delete_old_snapshots_spec_witness :
    snapTest "s1" "scrubber-test" (some 10) ∈
      wsTest.delete_old_snapshots 2 allSnapsC6 ∧
    snapTest "s5" "scrubber-test" (some 50) ∉
      wsTest.delete_old_snapshots 2 allSnapsC6 ∧
    snapTest "other" "someone-else" (some 99) ∉
      wsTest.delete_old_snapshots 2 allSnapsC6 := by
  refine ⟨?_, ?_, ?_⟩
  · exact ((delete_old_snapshots_spec wsTest 2 allSnapsC6).2.2 (by decide)
      (snapTest "s1" "scrubber-test" (some 10)) (by decide) rfl).mpr (by decide)
  · intro hmem
    have h := ((delete_old_snapshots_spec wsTest 2 allSnapsC6).2.2 (by decide)
      (snapTest "s5" "scrubber-test" (some 50)) (by decide) rfl).mp hmem
    exact absurd h (by decide)
  · exact (delete_old_snapshots_spec wsTest 2 allSnapsC6).2.1
      (snapTest "other" "someone-else" (some 99)) (by decide) (by decide)

/-! ## Claim C8: get_snapshot and the source-instance identifier -/

/-- C8 counterexample: a resolver that already knows source instance
identifier instance-a, fetching a snapshot the provider reports as
belonging to instance-b, has its known identifier overwritten by
get_snapshot (line 299 assigns unconditionally), so an already-known
identifier does not remain unchanged. -/
theorem get_snapshot_overwrite_counterexample :
    (mkFinder none (some "instance-a")
      (some "snap-1")).source_instance_identifier = some "instance-a" ∧
    (RdsSnapshotFinder.get_snapshot
      (mkFinder none (some "instance-a") (some "snap-1"))
      providerC8).st.source_instance_identifier = some "instance-b" ∧
    some ("instance-b" : String) ≠ some ("instance-a" : String) :=
  ⟨rfl, rfl, by decide⟩

/-- C8 (amended): get_snapshot sets the resolver's source-instance
identifier to the fetched snapshot's owning-instance identifier whenever
it actually fetches (no snapshot was cached), whether or not an
identifier was already known; when the snapshot is already cached the
call returns it with no provider calls and no state change at all. -/
theorem get_snapshot_backfill (st : Finder) (P : RdsProvider) :
    (∀ s, st.snapshot = some s →
      RdsSnapshotFinder.get_snapshot st P = ⟨st, [], .ok s⟩) ∧
    (st.snapshot = none → ∀ snap,
      (RdsSnapshotFinder.get_snapshot st P).res = .ok snap →
      (RdsSnapshotFinder.get_snapshot st P).st.source_instance_identifier =
        some snap.dbInstanceIdentifier) := by
  constructor
  · intro s hs
    rw [RdsSnapshotFinder.get_snapshot, hs]
  · intro hn snap hres
    rw [RdsSnapshotFinder.get_snapshot, hn] at hres ⊢
    cases hr : (RdsSnapshotFinder.get_snapshot_identifier st P).res with
    | error e =>
      simp only [hr] at hres
      exact absurd hres (by simp)
    | ok sid =>
      simp only [hr] at hres ⊢
      cases hp : P.snapshotsById sid with
      | nil =>
        simp only [hp] at hres
        exact absurd hres (by simp)
      | cons sh tl =>
        simp only [hp] at hres ⊢
        have hsh : sh = snap := by
          simpa using hres
        simp [hsh]

/-- C8 witness: the amended claim at the concrete counterexample
resolver: after the fetch the identifier equals the snapshot's owning
instance. -/
theorem get_snapshot_backfill_witness :
    (RdsSnapshotFinder.get_snapshot
      (mkFinder none (some "instance-a") (some "snap-1"))
      providerC8).st.source_instance_identifier = some "instance-b" :=
  (get_snapshot_backfill
    (mkFinder none (some "instance-a") (some "snap-1")) providerC8).2
    rfl (snapTest "snap-1" "instance-b" (some 3)) rfl

/-! ## Claim C3: resolving the source instance of a snapshot-only
resolver -/

/-- C3 counterexample: on a fresh resolver built with only snapshot
identifier snap-1, against a provider that reports snap-1 as belonging
to prod-db, a direct get_source_instance_identifier call does not
return prod-db: it performs the unfiltered describe_db_instances
enumeration (line 348) and raises the no-hostname exception from the
endpoint-address path, the snapshot never being consulted. -/
theorem direct_source_identifier_counterexample :
    (RdsSnapshotFinder.get_source_instance_identifier
      (mkFinder none none (some "snap-1")) providerC3).res =
      .error .noHostname ∧
    ProviderCall.describeInstancesAll ∈
      (RdsSnapshotFinder.get_source_instance_identifier
        (mkFinder none none (some "snap-1")) providerC3).calls :=
  ⟨rfl, by decide⟩

/-- C3 (amended): on a resolver built with only a snapshot identifier,
get_snapshot fetches the snapshot with a single describe-snapshots call
(no instance enumeration) and back-fills the source-instance identifier
from it; after that, get_source_instance_identifier returns the
snapshot's owning instance I with no provider calls at all - the claimed
behaviour therefore holds once the snapshot has been resolved, while a
direct call beforehand enumerates instances and raises. -/
theorem source_identifier_after_get_snapshot (sid : String)
    (P : RdsProvider) (snap : SnapshotRec) (tl : List SnapshotRec)
    (h : P.snapshotsById sid = snap :: tl) :
    (RdsSnapshotFinder.get_snapshot (mkFinder none none (some sid)) P).res =
      .ok snap ∧
    (RdsSnapshotFinder.get_snapshot (mkFinder none none (some sid)) P).calls
      = [.describeSnapshotsById sid] ∧
    RdsSnapshotFinder.get_source_instance_identifier
      (RdsSnapshotFinder.get_snapshot (mkFinder none none (some sid)) P).st
      P =
      ⟨(RdsSnapshotFinder.get_snapshot (mkFinder none none (some sid)) P).st,
        [], .ok snap.dbInstanceIdentifier⟩ ∧
    ProviderCall.describeInstancesAll ∉
      (RdsSnapshotFinder.get_snapshot
        (mkFinder none none (some sid)) P).calls := by
  have hgs : RdsSnapshotFinder.get_snapshot (mkFinder none none (some sid)) P
      = ⟨{ mkFinder none none (some sid) with
            snapshot := some snap,
            source_instance_identifier := some snap.dbInstanceIdentifier },
          [.describeSnapshotsById sid], .ok snap⟩ := by
    rw [RdsSnapshotFinder.get_snapshot]
    simp only [RdsSnapshotFinder.get_snapshot_identifier, mkFinder, h,
      List.nil_append]
  refine ⟨by rw [hgs], by rw [hgs], ?_, by rw [hgs]; simp⟩
  rw [hgs]
  exact gsii_cached _ P snap.dbInstanceIdentifier rfl

/-- C3 witness: the amended claim at the concrete snap-1 / prod-db
provider. -/
theorem source_identifier_after_get_snapshot_witness :
    (RdsSnapshotFinder.get_source_instance_identifier
      (RdsSnapshotFinder.get_snapshot (mkFinder none none (some "snap-1"))
        providerC3).st providerC3).res = .ok "prod-db" := by
  have h := (source_identifier_after_get_snapshot "snap-1" providerC3
    (snapTest "snap-1" "prod-db" (some 5)) [] rfl).2.2.1
  rw [h]
  rfl
